import Mathlib

/-!
# Verification of the riley voice-agent core

A shallow embedding of the Media Bridge session state machine
(`src/api/routes/twilio_routes.py`, `handle_media_stream` and helpers), the
Function-Call Dispatcher (`handle_function_call`), the Validation Schema
(`src/data_types/customer.py`, `CustomerCallSchema`), the Event Bus
(`src/infrastructure/redis/redis_client.py`, `RedisClient.publish_event`) and
the Event Router (`src/services/redis_consumer_service.py`,
`RedisConsumerService.process_event` / `start_consuming`).

Python dicts with string values are embedded as association lists
(`Args`); lookup returns the first binding, and updates remove the old
binding before appending, which agrees with dict lookup semantics.
-/

/-- A Python dict with string keys and string values, as an association list. -/
abbrev Args := List (String × String)

/-- Python `d.get(key)`: first binding for `key`, if any. -/
def getKey : Args → String → Option String
  | [], _ => none
  | (k, v) :: rest, key => if key = k then some v else getKey rest key

/-- Remove every binding of `key` (helper for dict update semantics). -/
def removeKey : Args → String → Args
  | [], _ => []
  | (k, v) :: rest, key =>
      if k = key then removeKey rest key else (k, v) :: removeKey rest key

/-- Python `d[key] = v`: lookup-equivalent to a Python dict assignment. -/
def setKey (d : Args) (key v : String) : Args :=
  removeKey d key ++ [(key, v)]

/-- The keys of a dict. -/
def dictKeys (d : Args) : List String := d.map Prod.fst

/-! ## Validation Schema (`src/data_types/customer.py`)

`CustomerCallSchema` (marshmallow): `timestamp` required (always supplied by
the dispatcher as `datetime.now().isoformat()`, which always parses, so the
DateTime format check is modelled as presence); `full_name` required with
length between 2 and 100; `phone_number`/`email`/`address`/`additional_notes`
optional (`validate_phone` is a `pass`, so no constraint); `reason_calling`
required; `preferred_contact_method` required and one of
`Whatsapp|Email|Phone`. marshmallow's default `unknown = RAISE` rejects keys
outside the declared fields. -/

def schemaFields : List String :=
  ["timestamp", "full_name", "phone_number", "email", "address",
   "reason_calling", "preferred_contact_method", "additional_notes"]

/-- The validation errors `CustomerCallSchema().load` collects on a payload
(message texts are this embedding's rendering of marshmallow's). -/
def validationErrors (d : Args) : List String :=
  (if ∀ k ∈ dictKeys d, k ∈ schemaFields then [] else ["Unknown field."]) ++
  (match getKey d "timestamp" with
   | none => ["timestamp: Missing data for required field."]
   | some _ => []) ++
  (match getKey d "full_name" with
   | none => ["full_name: Missing data for required field."]
   | some v =>
       if 2 ≤ v.length ∧ v.length ≤ 100 then []
       else ["full_name: Length must be between 2 and 100."]) ++
  (match getKey d "reason_calling" with
   | none => ["reason_calling: Missing data for required field."]
   | some _ => []) ++
  (match getKey d "preferred_contact_method" with
   | none => ["preferred_contact_method: Missing data for required field."]
   | some v =>
       if v ∈ (["Whatsapp", "Email", "Phone"] : List String) then []
       else ["preferred_contact_method: Must be one of: Whatsapp, Email, Phone."])

/-- The call `schema.load(d)`: succeeds exactly when no validation error is raised
(the `post_load` object construction carries no further checks). -/
def loadCustomerCall (d : Args) : Except String Unit :=
  match validationErrors d with
  | [] => .ok ()
  | es => .error (String.intercalate "; " es)

/-! ## Function-Call Dispatcher (`handle_function_call`, twilio_routes.py) -/

/-- The dict returned to the model as the function-call output. -/
structure FnResult where
  status : String
  message : String
  data_collected : Option (List String) := none
  validation_status : Option String := none
  validation_error : Option String := none
  deriving Repr, DecidableEq

/-- The observable effects of one dispatch: `redis_client.publish_event`
calls as `(event_type, data)` pairs, `redis_client.store_customer_session`
calls as `(stream_id, data)` pairs, and the acknowledgement returned. -/
structure DispatchEffects where
  events : List (String × Args) := []
  session_stores : List (String × Args) := []
  result : FnResult
  deriving Repr, DecidableEq

/-- The `field_mapping` of the gather branch: legacy alias key → canonical key. -/
def field_mapping : List (String × String) :=
  [("preferred_contact", "preferred_contact_method"),
   ("notes", "additional_notes")]

/-- One alias pass: `if old in d: d[new] = d.pop(old)`. -/
def applyAlias (d : Args) (old new : String) : Args :=
  match getKey d old with
  | none => d
  | some v => setKey (removeKey d old) new v

/-- Builds `validation_data = {**arguments, "timestamp": now}` followed by the
`field_mapping` renaming loop. -/
def prepareValidationData (args : Args) (now : String) : Args :=
  (field_mapping.foldl (fun d p => applyAlias d p.1 p.2) (setKey args "timestamp" now))

/-- The `try:` body of the `gather_client_information` branch: validation
failure propagates as an exception (`Except.error`). -/
def gather_body (args : Args) (stream_sid call_sid : Option String)
    (now : String) : Except String DispatchEffects :=
  match loadCustomerCall (prepareValidationData args now) with
  | .error e => .error e
  | .ok () => .ok
      { events := [("customer_data", args)],
        session_stores :=
          [(stream_sid.getD "unknown",
            setKey (setKey (setKey args "timestamp" now)
              "validation_status" "valid") "call_sid" (call_sid.getD ""))],
        result :=
          { status := "success",
            message := "Customer information collected and validated successfully",
            data_collected := some (dictKeys args),
            validation_status := some "passed" } }

/-- The dispatcher `handle_function_call(function_name, arguments, stream_sid, call_sid, ...)`.
The gather branch catches the validation exception (`except Exception`). -/
def handle_function_call (function_name : String) (args : Args)
    (stream_sid call_sid : Option String) (now : String) : DispatchEffects :=
  if function_name = "gather_client_information" then
    match gather_body args stream_sid call_sid now with
    | .ok eff => eff
    | .error e =>
        { events := [("customer_data_invalid", setKey args "validation_error" e)],
          result :=
            { status := "warning",
              message := "Customer information collected but validation failed. Please verify data manually.",
              data_collected := some (dictKeys args),
              validation_status := some "failed",
              validation_error := some e } }
  else if function_name = "set_up_meeting" then
    { events := [("meeting_scheduled", args)],
      result :=
        { status := "success",
          message := "Meeting scheduled for " ++ (getKey args "client_name").getD "None"
            ++ " on " ++ (getKey args "preferred_date").getD "None"
            ++ " at " ++ (getKey args "preferred_time").getD "None" } }
  else if function_name = "send_business_email" then
    { events := [("email_request", args)],
      result := { status := "success", message := "Business email sent with client details" } }
  else
    { result := { status := "error", message := "Unknown function" } }

/-! ## Media Bridge session state (`handle_media_stream`, twilio_routes.py)

The shared per-call state captured by the nested coroutines
`receive_from_twilio` / `send_to_twilio`. `should_end` is the flag local to
`send_to_twilio` that decides the post-loop hangup; it is part of the session
value here because it is per-call mutable state consulted at stream end.
`last_assistant_item = none` models both an absent `item_id` and a falsy
(empty) one, matching the code's truthiness tests. -/

structure Session where
  stream_sid : Option String := none
  call_sid : Option String := none
  latest_media_timestamp : Int := 0
  last_assistant_item : Option String := none
  mark_queue : List String := []
  response_start_timestamp_twilio : Option Int := none
  should_end : Bool := false
  deriving Repr, DecidableEq

/-- The session value right after both connections are up. -/
def initialSession : Session := {}

/-- Telephony-side events consumed by `receive_from_twilio`. -/
inductive TwilioEvent where
  | start (streamSid callSid : String)
  | media (timestamp : Int)
  | mark
  deriving Repr, DecidableEq

/-- Upstream model events consumed by `send_to_twilio`. `audioDelta none`
models a `response.audio.delta` whose `item_id` is absent or falsy. -/
inductive OpenAIEvent where
  | audioDelta (item_id : Option String)
  | speechStarted
  | functionCallDone (name : String) (args : Args)
  deriving Repr, DecidableEq

/-- Observable instructions the bridge sends on either leg. -/
inductive BridgeOutput where
  | appendUpstream
  | sessionUpdateUpstream
  | audioDownstream
  | markDownstream
  | truncateUpstream (item_id : String) (audio_end_ms : Int)
  | clearDownstream (streamSid : Option String)
  | functionResultUpstream (r : FnResult)
  deriving Repr, DecidableEq

/-- One iteration of `receive_from_twilio`'s message loop.

In the `start` branch the source also executes
`response_start_timestamp_twilio = None` and `last_assistant_item = None`,
but `receive_from_twilio` declares `nonlocal` only for `stream_sid`,
`latest_media_timestamp`, `call_sid`, `forwarded_from`, `owner`, `business`;
those two assignments therefore bind fresh locals of `receive_from_twilio`
and leave the shared session fields untouched. `latest_media_timestamp = 0`
is covered by the `nonlocal` declaration and does take effect. The business
and owner lookups and the regenerated instructions have no effect on the
session fields modelled here; the renewed `initialize_session` call is the
`sessionUpdateUpstream` output. -/
def receive_from_twilio_step (s : Session) (e : TwilioEvent) :
    Session × List BridgeOutput :=
  match e with
  | .media ts =>
      ({ s with latest_media_timestamp := ts }, [.appendUpstream])
  | .start sid cid =>
      ({ s with stream_sid := some sid, call_sid := some cid,
                latest_media_timestamp := 0 }, [.sessionUpdateUpstream])
  | .mark =>
      match s.mark_queue with
      | [] => (s, [])
      | _ :: rest => ({ s with mark_queue := rest }, [])

/-- The helper `handle_speech_started_event`: guarded by
`if mark_queue and response_start_timestamp_twilio is not None`. -/
def handle_speech_started_event (s : Session) : Session × List BridgeOutput :=
  match s.mark_queue, s.response_start_timestamp_twilio with
  | _ :: _, some t0 =>
      let elapsed_time := s.latest_media_timestamp - t0
      let truncOut : List BridgeOutput :=
        match s.last_assistant_item with
        | some item => [.truncateUpstream item elapsed_time]
        | none => []
      ({ s with mark_queue := [], last_assistant_item := none,
                response_start_timestamp_twilio := none },
       truncOut ++ [.clearDownstream s.stream_sid])
  | _, _ => (s, [])

/-- The helper `send_mark`: only acts when `stream_sid` is set. -/
def send_mark (s : Session) : Session × List BridgeOutput :=
  match s.stream_sid with
  | some _ => ({ s with mark_queue := s.mark_queue ++ ["responsePart"] },
               [.markDownstream])
  | none => (s, [])

/-- One iteration of `send_to_twilio`'s message loop. A
`response.function_call_arguments.done` event runs the dispatcher, relays its
result upstream and sets `should_end = True` — unconditionally, for every
function name. -/
def send_to_twilio_step (s : Session) (e : OpenAIEvent) (now : String) :
    Session × List BridgeOutput :=
  match e with
  | .functionCallDone name args =>
      let eff := handle_function_call name args s.stream_sid s.call_sid now
      ({ s with should_end := true }, [.functionResultUpstream eff.result])
  | .audioDelta item_id =>
      let s1 := { s with response_start_timestamp_twilio :=
                    match s.response_start_timestamp_twilio with
                    | none => some s.latest_media_timestamp
                    | some t => some t }
      let s2 := match item_id with
                | some item => { s1 with last_assistant_item := some item }
                | none => s1
      let step3 := send_mark s2
      (step3.1, .audioDownstream :: step3.2)
  | .speechStarted =>
      match s.last_assistant_item with
      | some _ => handle_speech_started_event s
      | none => (s, [])

/-- An event arriving on either leg of the bridge. -/
inductive BridgeEvent where
  | fromTwilio (e : TwilioEvent)
  | fromOpenAI (e : OpenAIEvent)
  deriving Repr, DecidableEq

/-- Dispatch one event to the owning pump. -/
def bridgeStep (now : String) (s : Session) (e : BridgeEvent) :
    Session × List BridgeOutput :=
  match e with
  | .fromTwilio te => receive_from_twilio_step s te
  | .fromOpenAI oe => send_to_twilio_step s oe now

/-- Run the bridge over a sequence of delivered events. -/
def runBridge (now : String) (s : Session) : List BridgeEvent →
    Session × List BridgeOutput
  | [] => (s, [])
  | e :: rest =>
      let step1 := bridgeStep now s e
      let step2 := runBridge now step1.1 rest
      (step2.1, step1.2 ++ step2.2)

/-- Runs `if should_end: await twilio_service.hangup_call(call_sid)` after the
upstream loop ends. -/
def hangupIssued (s : Session) : Bool := s.should_end

/-! ## Event Bus (`RedisClient.publish_event`, redis_client.py) -/

/-- The published envelope (`event_payload` in the source). -/
structure Envelope where
  event_id : String
  event_type : String
  timestamp : String
  stream_id : Option String := none
  call_sid : Option String := none
  data : Args
  deriving Repr, DecidableEq

/-- Modelled from the spec: `settings.REDIS_CHANNELS` is defined in
`core/config/settings.py`, which is not present in the source tree; the
static `event_type → channel` routing table below follows the spec's channel
routing table (§6), and coincides with the identical literal table in
`src/simple.py`. -/
def REDIS_CHANNELS : List (String × String) :=
  [("customer_data", "customer:data:new"),
   ("customer_data_invalid", "customer:data:invalid"),
   ("meeting_scheduled", "customer:meeting:scheduled"),
   ("email_request", "customer:email:request"),
   ("high_priority", "customer:priority:high")]

/-- The entry `settings.REDIS_CHANNELS['high_priority']`. -/
def high_priority_channel : String :=
  (getKey REDIS_CHANNELS "high_priority").getD ""

/-- The observable effects of one `publish_event` call: the `(channel,
envelope)` publishes in order, the `(key, ttl-seconds, envelope)` writes to
the keyed store, and the returned boolean. -/
structure PublishOutcome where
  published : List (String × Envelope) := []
  stored : List (String × Nat × Envelope) := []
  returned : Bool
  deriving Repr, DecidableEq

/-- The `event_payload` dict built at the top of `publish_event`. -/
def mkEnvelope (event_type : String) (data : Args)
    (stream_id call_sid : Option String) (event_id now : String) : Envelope :=
  { event_id := event_id, event_type := event_type, timestamp := now,
    stream_id := stream_id, call_sid := call_sid, data := data }

/-- The bus method `RedisClient.publish_event(event_type, data, stream_id, call_sid)`.
`event_id` (a fresh uuid) and `now` (`datetime.now().isoformat()`) are passed
explicitly. -/
def publish_event (connected : Bool) (event_type : String) (data : Args)
    (stream_id call_sid : Option String) (event_id now : String) :
    PublishOutcome :=
  if connected then
    let env : Envelope := mkEnvelope event_type data stream_id call_sid event_id now
    let channel := (getKey REDIS_CHANNELS event_type).getD "customer:general"
    let key := "customer:session:" ++ stream_id.getD "unknown" ++ ":" ++ event_id
    let priorityPub : List (String × Envelope) :=
      if getKey data "urgency" = some "high" ∨ getKey data "urgency" = some "urgent"
      then [(high_priority_channel, env)]
      else []
    { published := (channel, env) :: priorityPub,
      stored := [(key, 86400, env)],
      returned := true }
  else
    { returned := false }

/-! ## Event Router (`RedisConsumerService`, redis_consumer_service.py) -/

/-- The decoded body of a delivered message, as the router reads it:
`event_type = event_data.get('event_type')` plus the rest of the payload. -/
structure EventData where
  event_type : Option String := none
  body : Args := []
  deriving Repr, DecidableEq

/-- The keys of the static handler registry built by
`_setup_event_handlers`. -/
def event_handler_keys : List String :=
  ["customer_data", "customer_data_invalid", "meeting_scheduled", "high_priority"]

/-- What `process_event` did with one delivered message: which registered
handler ran and whether it raised (caught and logged), or why the message
was dropped. -/
inductive ProcessOutcome where
  | handled (handler_key : String)
  | handlerFailed (handler_key : String) (err : String)
  | unknownDropped
  | decodeFailed (err : String)
  deriving Repr, DecidableEq

/-- The router method `RedisConsumerService.process_event(channel, message)`. The handler
behaviour `hb` gives, per registry key, the handler's action on the event
(`Except.error` = the handler raised). The whole body runs under
`try: ... except json.JSONDecodeError ... except Exception`, so every
failure is caught, logged and turned into a `ProcessOutcome`; the function
never raises. The message is given as its decode result
(`Except.error` = `json.loads` raised). -/
def process_event (hb : String → EventData → Except String Unit)
    (channel : String) (message : Except String EventData) : ProcessOutcome :=
  match message with
  | .error e => .decodeFailed e
  | .ok event_data =>
    let runHandler : String → ProcessOutcome := fun key =>
      match hb key event_data with
      | .ok () => .handled key
      | .error err => .handlerFailed key err
    match event_data.event_type with
    | some et =>
        if et ∈ event_handler_keys then runHandler et
        else if channel = high_priority_channel then runHandler "high_priority"
        else .unknownDropped
    | none =>
        if channel = high_priority_channel then runHandler "high_priority"
        else .unknownDropped

/-- A generic consuming loop: runs `step` on each delivered message; an
exception escaping the loop body ends the loop (`start_consuming`'s outer
`except Exception` logs it and falls through to the `finally` block). -/
def consumeLoop (step : String × Except String EventData → Except String ProcessOutcome) :
    List (String × Except String EventData) → List ProcessOutcome
  | [] => []
  | m :: rest =>
      match step m with
      | .ok o => o :: consumeLoop step rest
      | .error _ => []

/-- The loop of `start_consuming`: the body is `process_event`, which is
total, so each iteration yields an outcome and the loop goes on. -/
def start_consuming (hb : String → EventData → Except String Unit)
    (msgs : List (String × Except String EventData)) : List ProcessOutcome :=
  consumeLoop (fun m => .ok (process_event hb m.1 m.2)) msgs

/-! ## Dictionary lemmas -/

theorem getKey_append (d1 d2 : Args) (k : String) :
    getKey (d1 ++ d2) k = ((getKey d1 k).orElse (fun _ => getKey d2 k)) := by
  induction d1 with
  | nil => simp [getKey, Option.orElse]
  | cons kv rest ih =>
      obtain ⟨k1, v1⟩ := kv
      by_cases h : k = k1 <;> simp [getKey, h, ih, Option.orElse]

theorem getKey_removeKey_self (d : Args) (key : String) :
    getKey (removeKey d key) key = none := by
  induction d with
  | nil => simp [removeKey, getKey]
  | cons kv rest ih =>
      obtain ⟨k1, v1⟩ := kv
      by_cases h : k1 = key
      · simp [removeKey, h, ih]
      · have h2 : key ≠ k1 := fun hh => h hh.symm
        simp [removeKey, getKey, h, h2, ih]

theorem getKey_removeKey_ne (d : Args) (key k : String) (h : k ≠ key) :
    getKey (removeKey d key) k = getKey d k := by
  induction d with
  | nil => simp [removeKey]
  | cons kv rest ih =>
      obtain ⟨k1, v1⟩ := kv
      by_cases h1 : k1 = key
      · have h2 : k ≠ k1 := fun hh => h (hh ▸ h1)
        simp [removeKey, getKey, h1, h2, h, ih]
      · by_cases h2 : k = k1 <;> simp [removeKey, getKey, h1, h2, ih]

theorem getKey_setKey_self (d : Args) (key v : String) :
    getKey (setKey d key v) key = some v := by
  simp [setKey, getKey_append, getKey_removeKey_self, getKey, Option.orElse]

theorem getKey_setKey_ne (d : Args) (key v k : String) (h : k ≠ key) :
    getKey (setKey d key v) k = getKey d k := by
  simp only [setKey, getKey_append, getKey_removeKey_ne d key k h, getKey, h,
    if_neg h]
  cases getKey d k <;> simp [Option.orElse]

theorem dictKeys_cons (k1 v1 : String) (rest : Args) :
    dictKeys ((k1, v1) :: rest) = k1 :: dictKeys rest := rfl

theorem mem_dictKeys_of_getKey (d : Args) (k v : String)
    (h : getKey d k = some v) : k ∈ dictKeys d := by
  induction d with
  | nil => simp [getKey] at h
  | cons kv rest ih =>
      obtain ⟨k1, v1⟩ := kv
      rw [dictKeys_cons]
      by_cases h1 : k = k1
      · exact h1 ▸ List.mem_cons_self k1 (dictKeys rest)
      · simp only [getKey, if_neg h1] at h
        exact List.mem_cons_of_mem k1 (ih h)

theorem mem_dictKeys_removeKey (d : Args) (key k : String)
    (h : k ∈ dictKeys (removeKey d key)) : k ∈ dictKeys d := by
  induction d with
  | nil => simpa [removeKey] using h
  | cons kv rest ih =>
      obtain ⟨k1, v1⟩ := kv
      rw [dictKeys_cons]
      by_cases h1 : k1 = key
      · rw [removeKey, if_pos h1] at h
        exact List.mem_cons_of_mem k1 (ih h)
      · rw [removeKey, if_neg h1, dictKeys_cons] at h
        rcases List.mem_cons.mp h with h2 | h2
        · exact h2 ▸ List.mem_cons_self k1 (dictKeys rest)
        · exact List.mem_cons_of_mem k1 (ih h2)

theorem getKey_applyAlias_ne (d : Args) (old new k : String)
    (h1 : k ≠ old) (h2 : k ≠ new) :
    getKey (applyAlias d old new) k = getKey d k := by
  unfold applyAlias
  cases hv : getKey d old with
  | none => rfl
  | some v =>
      rw [getKey_setKey_ne _ _ _ _ h2, getKey_removeKey_ne _ _ _ h1]

/-! ## Validation facts -/

/-- Arguments that satisfy `CustomerCallSchema`: every key is a declared
schema field (marshmallow raises on unknown keys), `full_name` is present
with 2–100 characters, `reason_calling` is present, and
`preferred_contact_method` is present and one of the closed enum. -/
def SatisfiesSchema (args : Args) : Prop :=
  (∀ k ∈ dictKeys args, k ∈ schemaFields) ∧
  (∃ v, getKey args "full_name" = some v ∧ 2 ≤ v.length ∧ v.length ≤ 100) ∧
  (∃ v, getKey args "reason_calling" = some v) ∧
  (∃ v, getKey args "preferred_contact_method" = some v ∧
    v ∈ (["Whatsapp", "Email", "Phone"] : List String))

theorem applyAlias_of_none {d : Args} {old new : String}
    (h : getKey d old = none) : applyAlias d old new = d := by
  unfold applyAlias
  rw [h]

theorem getKey_none_of_keys_subset (args : Args) (k : String)
    (hsub : ∀ x ∈ dictKeys args, x ∈ schemaFields) (hk : k ∉ schemaFields) :
    getKey args k = none := by
  cases hv : getKey args k with
  | none => rfl
  | some v => exact absurd (hsub k (mem_dictKeys_of_getKey args k v hv)) hk

theorem prepare_of_schema_keys (args : Args) (now : String)
    (hsub : ∀ x ∈ dictKeys args, x ∈ schemaFields) :
    prepareValidationData args now = setKey args "timestamp" now := by
  unfold prepareValidationData field_mapping
  simp only [List.foldl]
  have h1 : getKey (setKey args "timestamp" now) "preferred_contact" = none := by
    rw [getKey_setKey_ne _ _ _ _ (by decide)]
    exact getKey_none_of_keys_subset args _ hsub (by decide)
  have h2 : getKey (setKey args "timestamp" now) "notes" = none := by
    rw [getKey_setKey_ne _ _ _ _ (by decide)]
    exact getKey_none_of_keys_subset args _ hsub (by decide)
  rw [applyAlias_of_none h1, applyAlias_of_none h2]

theorem validationErrors_nil_of_satisfies (args : Args) (now : String)
    (h : SatisfiesSchema args) :
    validationErrors (prepareValidationData args now) = [] := by
  obtain ⟨hsub, ⟨fn, hfn, hfn2, hfn100⟩, ⟨rc, hrc⟩, ⟨pm, hpm, hpmem⟩⟩ := h
  rw [prepare_of_schema_keys args now hsub]
  have hts : getKey (setKey args "timestamp" now) "timestamp" = some now :=
    getKey_setKey_self args "timestamp" now
  have hf : getKey (setKey args "timestamp" now) "full_name" = some fn := by
    rw [getKey_setKey_ne _ _ _ _ (by decide)]; exact hfn
  have hr : getKey (setKey args "timestamp" now) "reason_calling" = some rc := by
    rw [getKey_setKey_ne _ _ _ _ (by decide)]; exact hrc
  have hp : getKey (setKey args "timestamp" now) "preferred_contact_method" = some pm := by
    rw [getKey_setKey_ne _ _ _ _ (by decide)]; exact hpm
  have hkeys : ∀ k ∈ dictKeys (setKey args "timestamp" now), k ∈ schemaFields := by
    intro k hk
    unfold setKey at hk
    unfold dictKeys at hk
    rw [List.map_append] at hk
    rcases List.mem_append.mp hk with hmem | hmem
    · exact hsub k (mem_dictKeys_removeKey args "timestamp" k hmem)
    · simp at hmem
      rw [hmem]
      decide
  unfold validationErrors
  rw [if_pos hkeys, hts, hf, hr, hp]
  simp [hfn2, hfn100, hpmem]

/-- Successful validation path of the gather branch, in full. -/
theorem gather_body_of_satisfies (args : Args) (sid cid : Option String)
    (now : String) (h : SatisfiesSchema args) :
    gather_body args sid cid now = .ok
      { events := [("customer_data", args)],
        session_stores :=
          [(sid.getD "unknown",
            setKey (setKey (setKey args "timestamp" now)
              "validation_status" "valid") "call_sid" (cid.getD ""))],
        result :=
          { status := "success",
            message := "Customer information collected and validated successfully",
            data_collected := some (dictKeys args),
            validation_status := some "passed" } } := by
  have hv := validationErrors_nil_of_satisfies args now h
  unfold gather_body loadCustomerCall
  rw [hv]

theorem getKey_prepare_reason_none (args : Args) (now : String)
    (h : getKey args "reason_calling" = none) :
    getKey (prepareValidationData args now) "reason_calling" = none := by
  unfold prepareValidationData field_mapping
  simp only [List.foldl]
  rw [getKey_applyAlias_ne _ _ _ _ (by decide) (by decide),
      getKey_applyAlias_ne _ _ _ _ (by decide) (by decide),
      getKey_setKey_ne _ _ _ _ (by decide)]
  exact h

theorem loadCustomerCall_error_of_missing_reason (d : Args)
    (h : getKey d "reason_calling" = none) :
    loadCustomerCall d = .error (String.intercalate "; " (validationErrors d)) := by
  have hmem : "reason_calling: Missing data for required field." ∈ validationErrors d := by
    unfold validationErrors
    rw [h]
    simp
  have hne : validationErrors d ≠ [] := List.ne_nil_of_mem hmem
  have hcons : ∃ a t, validationErrors d = a :: t := by
    cases hv : validationErrors d with
    | nil => exact absurd hv hne
    | cons a t => exact ⟨a, t, rfl⟩
  obtain ⟨a, t, hv⟩ := hcons
  unfold loadCustomerCall
  rw [hv]

/-! ## Claims C4 and C5: the gather dispatch paths -/

/-- C4 (amended): for all `gather_client_information` arguments that satisfy
the schema, dispatch emits exactly one `customer_data` event whose payload
is exactly the raw arguments — the `valid` marker is written to the
separately persisted session record, not to the event — and returns an
acknowledgement listing the captured field names with
`validation_status: passed`. -/
theorem gather_valid_dispatch_exact_payload (args : Args)
    (sid cid : Option String) (now : String) (h : SatisfiesSchema args) :
    handle_function_call "gather_client_information" args sid cid now =
      { events := [("customer_data", args)],
        session_stores :=
          [(sid.getD "unknown",
            setKey (setKey (setKey args "timestamp" now)
              "validation_status" "valid") "call_sid" (cid.getD ""))],
        result :=
          { status := "success",
            message := "Customer information collected and validated successfully",
            data_collected := some (dictKeys args),
            validation_status := some "passed" } } := by
  have hb := gather_body_of_satisfies args sid cid now h
  unfold handle_function_call
  rw [if_pos rfl, hb]

/-- Witness for C4's theorem at concrete schema-satisfying arguments. -/
theorem gather_valid_dispatch_exact_payload_witness :
    handle_function_call "gather_client_information"
        [("full_name", "Jane Doe"), ("reason_calling", "Needs a quote"),
         ("preferred_contact_method", "Email")] (some "S1") (some "C1") "T0" =
      { events := [("customer_data",
          [("full_name", "Jane Doe"), ("reason_calling", "Needs a quote"),
           ("preferred_contact_method", "Email")])],
        session_stores := [("S1",
          [("full_name", "Jane Doe"), ("reason_calling", "Needs a quote"),
           ("preferred_contact_method", "Email"), ("timestamp", "T0"),
           ("validation_status", "valid"), ("call_sid", "C1")])],
        result :=
          { status := "success",
            message := "Customer information collected and validated successfully",
            data_collected := some ["full_name", "reason_calling", "preferred_contact_method"],
            validation_status := some "passed" } } :=
  gather_valid_dispatch_exact_payload _ _ _ _
    ⟨by decide, ⟨"Jane Doe", rfl, by decide, by decide⟩,
     ⟨"Needs a quote", rfl⟩, ⟨"Email", rfl, by decide⟩⟩

/-- C4 counterexample: at concrete schema-satisfying arguments, the emitted
`customer_data` event's payload is the raw arguments only and carries no
`valid` marker — no `validation_status` key and no `valid` key — contrary
to the claim that the payload is the raw arguments plus a valid marker. -/
theorem gather_valid_marker_counterexample :
    (handle_function_call "gather_client_information"
        [("full_name", "Jane Doe"), ("reason_calling", "Needs a quote"),
         ("preferred_contact_method", "Email")] (some "S1") (some "C1") "T0").events =
      [("customer_data",
        [("full_name", "Jane Doe"), ("reason_calling", "Needs a quote"),
         ("preferred_contact_method", "Email")])] ∧
    getKey [("full_name", "Jane Doe"), ("reason_calling", "Needs a quote"),
      ("preferred_contact_method", "Email")] "validation_status" = none ∧
    getKey [("full_name", "Jane Doe"), ("reason_calling", "Needs a quote"),
      ("preferred_contact_method", "Email")] "valid" = none := by
  decide

/-- C5: for any gather arguments missing `reason_calling`, dispatch emits
exactly one `customer_data_invalid` event carrying the raw arguments plus
the error text, never a `customer_data` event, and returns — rather than
raising — a "warning" acknowledgement with `validation_status: failed`. -/
theorem gather_missing_reason_dispatch (args : Args) (sid cid : Option String)
    (now : String) (h : getKey args "reason_calling" = none) :
    ∃ e, handle_function_call "gather_client_information" args sid cid now =
        { events := [("customer_data_invalid", setKey args "validation_error" e)],
          session_stores := [],
          result :=
            { status := "warning",
              message := "Customer information collected but validation failed. Please verify data manually.",
              data_collected := some (dictKeys args),
              validation_status := some "failed",
              validation_error := some e } } ∧
      (∀ k, k ≠ "validation_error" →
        getKey (setKey args "validation_error" e) k = getKey args k) ∧
      getKey (setKey args "validation_error" e) "validation_error" = some e := by
  refine ⟨String.intercalate "; "
      (validationErrors (prepareValidationData args now)), ?_, ?_, ?_⟩
  · have hl := loadCustomerCall_error_of_missing_reason _
      (getKey_prepare_reason_none args now h)
    simp [handle_function_call, gather_body, hl]
  · intro k hk
    exact getKey_setKey_ne _ _ _ _ hk
  · exact getKey_setKey_self _ _ _

/-- Witness for C5's theorem at concrete arguments lacking
`reason_calling`. -/
theorem gather_missing_reason_dispatch_witness :
    ∃ e, handle_function_call "gather_client_information"
        [("full_name", "Jane Doe"), ("preferred_contact_method", "Email")]
        (some "S1") (some "C1") "T0" =
        { events := [("customer_data_invalid",
            setKey [("full_name", "Jane Doe"), ("preferred_contact_method", "Email")]
              "validation_error" e)],
          session_stores := [],
          result :=
            { status := "warning",
              message := "Customer information collected but validation failed. Please verify data manually.",
              data_collected := some (dictKeys
                [("full_name", "Jane Doe"), ("preferred_contact_method", "Email")]),
              validation_status := some "failed",
              validation_error := some e } } ∧
      (∀ k, k ≠ "validation_error" →
        getKey (setKey [("full_name", "Jane Doe"), ("preferred_contact_method", "Email")]
          "validation_error" e) k =
          getKey [("full_name", "Jane Doe"), ("preferred_contact_method", "Email")] k) ∧
      getKey (setKey [("full_name", "Jane Doe"), ("preferred_contact_method", "Email")]
        "validation_error" e) "validation_error" = some e :=
  gather_missing_reason_dispatch
    [("full_name", "Jane Doe"), ("preferred_contact_method", "Email")]
    (some "S1") (some "C1") "T0" (by decide)

/-! ## Claims C1 and C2: the interruption path -/

/-- C1 (amended): a speech-started event triggers the interruption —
truncate upstream at `latest_media_timestamp - response_start_timestamp`,
clear downstream, empty `mark_queue`, unset `last_assistant_item` and
`response_start_timestamp` — exactly when `last_assistant_item` is set AND
`mark_queue` is nonempty AND `response_start_timestamp` is set; in every
other case (in particular whenever `last_assistant_item` is unset, but also
when it is set while `mark_queue` is empty or
`response_start_timestamp` is unset) the event is a no-op that sends
nothing and leaves every session field unchanged. -/
theorem speech_started_characterization :
    (∀ (s : Session) (now item : String) (t0 : Int),
      s.last_assistant_item = some item →
      s.response_start_timestamp_twilio = some t0 →
      s.mark_queue ≠ [] →
      send_to_twilio_step s .speechStarted now =
        ({ s with mark_queue := [], last_assistant_item := none,
                  response_start_timestamp_twilio := none },
         [.truncateUpstream item (s.latest_media_timestamp - t0),
          .clearDownstream s.stream_sid])) ∧
    (∀ (s : Session) (now : String),
      s.last_assistant_item = none ∨ s.mark_queue = [] ∨
        s.response_start_timestamp_twilio = none →
      send_to_twilio_step s .speechStarted now = (s, [])) := by
  constructor
  · intro s now item t0 hitem ht0 hq
    cases hmq : s.mark_queue with
    | nil => exact absurd hmq hq
    | cons m rest =>
        simp [send_to_twilio_step, handle_speech_started_event, hitem, ht0, hmq]
  · intro s now h
    rcases h with h | h | h
    · simp [send_to_twilio_step, h]
    · cases hitem : s.last_assistant_item with
      | none => simp [send_to_twilio_step, hitem]
      | some item =>
          simp [send_to_twilio_step, handle_speech_started_event, hitem, h]
    · cases hitem : s.last_assistant_item with
      | none => simp [send_to_twilio_step, hitem]
      | some item =>
          cases hmq : s.mark_queue with
          | nil => simp [send_to_twilio_step, handle_speech_started_event, hitem, hmq]
          | cons m rest =>
              simp [send_to_twilio_step, handle_speech_started_event, hitem, hmq, h]

/-- Witness for C1's theorem: both conjuncts applied at concrete sessions. -/
theorem speech_started_characterization_witness :
    (send_to_twilio_step
        { stream_sid := some "S1", call_sid := some "C1",
          latest_media_timestamp := 5000, last_assistant_item := some "item1",
          mark_queue := ["responsePart"],
          response_start_timestamp_twilio := some 2000 }
        .speechStarted "T0" =
      ({ stream_sid := some "S1", call_sid := some "C1",
         latest_media_timestamp := 5000, last_assistant_item := none,
         mark_queue := [], response_start_timestamp_twilio := none },
       [.truncateUpstream "item1" 3000, .clearDownstream (some "S1")])) ∧
    (send_to_twilio_step
        { stream_sid := some "S1", latest_media_timestamp := 5000 }
        .speechStarted "T0" =
      ({ stream_sid := some "S1", latest_media_timestamp := 5000 }, [])) :=
  ⟨speech_started_characterization.1 _ "T0" "item1" 2000 rfl rfl (by decide),
   speech_started_characterization.2 _ "T0" (Or.inl rfl)⟩

/-- C1 counterexample: a session reachable via start, one audio delta
carrying an item id, and one telephony mark acknowledgement has
`last_assistant_item` set but an empty `mark_queue`; the claim says a
speech-started event must now send a truncate instruction, yet the event is
a complete no-op. -/
theorem speech_started_set_item_noop_counterexample :
    (runBridge "T0" initialSession
        [.fromTwilio (.start "S1" "C1"), .fromOpenAI (.audioDelta (some "item1")),
         .fromTwilio .mark]).1 =
      { stream_sid := some "S1", call_sid := some "C1",
        latest_media_timestamp := 0, last_assistant_item := some "item1",
        mark_queue := [], response_start_timestamp_twilio := some 0 } ∧
    (send_to_twilio_step
        { stream_sid := some "S1", call_sid := some "C1",
          latest_media_timestamp := 0, last_assistant_item := some "item1",
          mark_queue := [], response_start_timestamp_twilio := some 0 }
        .speechStarted "T0").2 = [] ∧
    (send_to_twilio_step
        { stream_sid := some "S1", call_sid := some "C1",
          latest_media_timestamp := 0, last_assistant_item := some "item1",
          mark_queue := [], response_start_timestamp_twilio := some 0 }
        .speechStarted "T0").1 =
      { stream_sid := some "S1", call_sid := some "C1",
        latest_media_timestamp := 0, last_assistant_item := some "item1",
        mark_queue := [], response_start_timestamp_twilio := some 0 } := by
  decide

/-- C2 (amended): whenever the interruption path fires, the truncate
instruction's `audio_end_ms` equals
`latest_media_timestamp - response_start_timestamp` with no clamping — the
difference is sent as-is even when negative. With
`latest_media_timestamp = 5000` and `response_start_timestamp = 2000` it
carries `audio_end_ms = 3000`. -/
theorem truncate_audio_end_ms_unclamped (s : Session) (now item : String)
    (t0 : Int) (hitem : s.last_assistant_item = some item)
    (ht0 : s.response_start_timestamp_twilio = some t0)
    (hq : s.mark_queue ≠ []) :
    (send_to_twilio_step s .speechStarted now).2 =
      [.truncateUpstream item (s.latest_media_timestamp - t0),
       .clearDownstream s.stream_sid] := by
  cases hmq : s.mark_queue with
  | nil => exact absurd hmq hq
  | cons m rest =>
      simp [send_to_twilio_step, handle_speech_started_event, hitem, ht0, hmq]

/-- Witness for C2's theorem: the spec's own example,
`latest_media_timestamp = 5000`, `response_start_timestamp = 2000`,
yielding `audio_end_ms = 3000`. -/
theorem truncate_audio_end_ms_unclamped_witness :
    (send_to_twilio_step
        { stream_sid := some "S1", latest_media_timestamp := 5000,
          last_assistant_item := some "item1", mark_queue := ["responsePart"],
          response_start_timestamp_twilio := some 2000 }
        .speechStarted "T0").2 =
      [.truncateUpstream "item1" 3000, .clearDownstream (some "S1")] :=
  truncate_audio_end_ms_unclamped _ "T0" "item1" 2000 rfl rfl (by decide)

/-- C2 counterexample: along the trace start, media at 5000 ms, audio delta,
then a second start message (which resets `latest_media_timestamp` to 0 but,
lacking `nonlocal`, not the other timing fields), the interruption fires
with `audio_end_ms = -5000`, not the claimed clamped value
`max (0 - 5000) 0 = 0`. -/
theorem truncate_clamping_counterexample :
    (runBridge "T0" initialSession
        [.fromTwilio (.start "S1" "C1"), .fromTwilio (.media 5000),
         .fromOpenAI (.audioDelta (some "item1")),
         .fromTwilio (.start "S2" "C2")]).1 =
      { stream_sid := some "S2", call_sid := some "C2",
        latest_media_timestamp := 0, last_assistant_item := some "item1",
        mark_queue := ["responsePart"],
        response_start_timestamp_twilio := some 5000 } ∧
    (send_to_twilio_step
        { stream_sid := some "S2", call_sid := some "C2",
          latest_media_timestamp := 0, last_assistant_item := some "item1",
          mark_queue := ["responsePart"],
          response_start_timestamp_twilio := some 5000 }
        .speechStarted "T0").2 =
      [.truncateUpstream "item1" (-5000), .clearDownstream (some "S2")] ∧
    (-5000 : Int) ≠ max ((0 : Int) - 5000) 0 := by
  decide

/-! ## Claims C7, C8, C6: session resets, the timing invariant, termination -/

/-- C7: evaluating the start handler at a session whose interruption fields
are set shows the divergence: `stream_sid`/`call_sid` are bound and
`latest_media_timestamp` is reset to 0, but
`response_start_timestamp_twilio` and `last_assistant_item` stay set — the
resetting assignments in `receive_from_twilio` lack a `nonlocal`
declaration, bind function-locals, and never reach the shared session. -/
theorem start_does_not_reset_interruption_fields :
    receive_from_twilio_step
        { stream_sid := some "S1", call_sid := some "C1",
          latest_media_timestamp := 3000, last_assistant_item := some "item1",
          mark_queue := ["responsePart"],
          response_start_timestamp_twilio := some 2000 }
        (.start "S2" "C2") =
      ({ stream_sid := some "S2", call_sid := some "C2",
         latest_media_timestamp := 0, last_assistant_item := some "item1",
         mark_queue := ["responsePart"],
         response_start_timestamp_twilio := some 2000 },
       [.sessionUpdateUpstream]) := by
  decide

/-- Preservation: every event other than an item-less audio delta keeps
`response_start_timestamp_twilio` and `last_assistant_item` jointly set or
jointly unset. -/
theorem both_or_neither_step (now : String) (s : Session) (e : BridgeEvent)
    (he : e ≠ .fromOpenAI (.audioDelta none))
    (h : s.response_start_timestamp_twilio.isSome = s.last_assistant_item.isSome) :
    (bridgeStep now s e).1.response_start_timestamp_twilio.isSome =
      (bridgeStep now s e).1.last_assistant_item.isSome := by
  cases e with
  | fromTwilio te =>
      cases te with
      | start sid cid => simpa [bridgeStep, receive_from_twilio_step] using h
      | media ts => simpa [bridgeStep, receive_from_twilio_step] using h
      | mark =>
          cases hq : s.mark_queue with
          | nil => simpa [bridgeStep, receive_from_twilio_step, hq] using h
          | cons m rest => simpa [bridgeStep, receive_from_twilio_step, hq] using h
  | fromOpenAI oe =>
      cases oe with
      | functionCallDone name args => simpa [bridgeStep, send_to_twilio_step] using h
      | audioDelta item =>
          cases item with
          | none => exact absurd rfl he
          | some id =>
              cases hr : s.response_start_timestamp_twilio <;>
                cases hs : s.stream_sid <;>
                  simp [bridgeStep, send_to_twilio_step, send_mark, hr, hs]
      | speechStarted =>
          cases hitem : s.last_assistant_item with
          | none => simpa [bridgeStep, send_to_twilio_step, hitem] using h
          | some id =>
              cases hq : s.mark_queue with
              | nil =>
                  simpa [bridgeStep, send_to_twilio_step,
                    handle_speech_started_event, hitem, hq] using h
              | cons m rest =>
                  cases hr : s.response_start_timestamp_twilio with
                  | none =>
                      rw [hr, hitem] at h
                      simp at h
                  | some t0 =>
                      simp [bridgeStep, send_to_twilio_step,
                        handle_speech_started_event, hitem, hq, hr]

theorem runBridge_cons_fst (now : String) (s : Session) (e : BridgeEvent)
    (rest : List BridgeEvent) :
    (runBridge now s (e :: rest)).1 =
      (runBridge now (bridgeStep now s e).1 rest).1 := rfl

theorem both_or_neither_run (now : String) (s : Session)
    (evs : List BridgeEvent)
    (hevs : ∀ e ∈ evs, e ≠ .fromOpenAI (.audioDelta none))
    (h : s.response_start_timestamp_twilio.isSome = s.last_assistant_item.isSome) :
    (runBridge now s evs).1.response_start_timestamp_twilio.isSome =
      (runBridge now s evs).1.last_assistant_item.isSome := by
  induction evs generalizing s with
  | nil => simpa [runBridge] using h
  | cons e rest ih =>
      rw [runBridge_cons_fst]
      exact ih _ (fun x hx => hevs x (List.mem_cons_of_mem e hx))
        (both_or_neither_step now s e (hevs e (List.mem_cons_self e rest)) h)

/-- C8 (amended): in every session state reachable from the initial
session by telephony events (start, media, mark) and upstream events
(audio delta, speech started) in which every audio delta carries an item
identifier, `response_start_timestamp` and `last_assistant_item` are
either both set or both unset. -/
theorem both_or_neither_reachable (now : String) (evs : List BridgeEvent)
    (hevs : ∀ e ∈ evs, e ≠ .fromOpenAI (.audioDelta none)) :
    (runBridge now initialSession evs).1.response_start_timestamp_twilio.isSome =
      (runBridge now initialSession evs).1.last_assistant_item.isSome :=
  both_or_neither_run now initialSession evs hevs rfl

/-- Witness for C8's theorem along a concrete trace. -/
theorem both_or_neither_reachable_witness :
    (runBridge "T0" initialSession
        [.fromTwilio (.start "S1" "C1"), .fromTwilio (.media 100),
         .fromOpenAI (.audioDelta (some "item1")),
         .fromOpenAI .speechStarted]).1.response_start_timestamp_twilio.isSome =
      (runBridge "T0" initialSession
        [.fromTwilio (.start "S1" "C1"), .fromTwilio (.media 100),
         .fromOpenAI (.audioDelta (some "item1")),
         .fromOpenAI .speechStarted]).1.last_assistant_item.isSome :=
  both_or_neither_reachable "T0" _ (by decide)

/-- C8 counterexample: a single audio delta whose `item_id` is absent (the
code reads it with `response.get('item_id')` and only assigns when truthy)
reaches a state with `response_start_timestamp` set and
`last_assistant_item` unset, so the unconditional both-or-neither invariant
fails. -/
theorem both_or_neither_counterexample :
    (runBridge "T0" initialSession [.fromOpenAI (.audioDelta none)]).1 =
      { stream_sid := none, call_sid := none, latest_media_timestamp := 0,
        last_assistant_item := none, mark_queue := [],
        response_start_timestamp_twilio := some 0 } ∧
    ((runBridge "T0" initialSession
        [.fromOpenAI (.audioDelta none)]).1.response_start_timestamp_twilio.isSome =
      true) ∧
    ((runBridge "T0" initialSession
        [.fromOpenAI (.audioDelta none)]).1.last_assistant_item.isSome = false) := by
  decide

/-- The flag `should_end` is never cleared by any bridge step. -/
theorem should_end_step_mono (now : String) (s : Session) (e : BridgeEvent)
    (h : s.should_end = true) : (bridgeStep now s e).1.should_end = true := by
  cases e with
  | fromTwilio te =>
      cases te with
      | start sid cid => simpa [bridgeStep, receive_from_twilio_step] using h
      | media ts => simpa [bridgeStep, receive_from_twilio_step] using h
      | mark =>
          cases hq : s.mark_queue with
          | nil => simpa [bridgeStep, receive_from_twilio_step, hq] using h
          | cons m rest => simpa [bridgeStep, receive_from_twilio_step, hq] using h
  | fromOpenAI oe =>
      cases oe with
      | functionCallDone name args => simp [bridgeStep, send_to_twilio_step]
      | audioDelta item =>
          cases item with
          | none =>
              cases hs : s.stream_sid <;>
                simpa [bridgeStep, send_to_twilio_step, send_mark, hs] using h
          | some id =>
              cases hs : s.stream_sid <;>
                simpa [bridgeStep, send_to_twilio_step, send_mark, hs] using h
      | speechStarted =>
          cases hitem : s.last_assistant_item with
          | none => simpa [bridgeStep, send_to_twilio_step, hitem] using h
          | some id =>
              cases hq : s.mark_queue with
              | nil =>
                  simpa [bridgeStep, send_to_twilio_step,
                    handle_speech_started_event, hitem, hq] using h
              | cons m rest =>
                  cases hr : s.response_start_timestamp_twilio with
                  | none =>
                      simpa [bridgeStep, send_to_twilio_step,
                        handle_speech_started_event, hitem, hq, hr] using h
                  | some t0 =>
                      simpa [bridgeStep, send_to_twilio_step,
                        handle_speech_started_event, hitem, hq, hr] using h

theorem should_end_run_mono (now : String) (s : Session)
    (evs : List BridgeEvent) (h : s.should_end = true) :
    (runBridge now s evs).1.should_end = true := by
  induction evs generalizing s with
  | nil => simpa [runBridge] using h
  | cons e rest ih =>
      rw [runBridge_cons_fst]
      exact ih _ (should_end_step_mono now s e h)

/-- C6 (amended): every `response.function_call_arguments.done` event —
whichever of the three recognized functions (or any other name) it names —
relays the dispatcher's result upstream and sets the termination flag
unconditionally, so the telephony leg is hung up once the upstream stream
ends; the session does not continue after `gather_client_information` or
`set_up_meeting` either. -/
theorem any_function_call_signals_termination :
    (∀ (now : String) (s : Session) (name : String) (args : Args),
      send_to_twilio_step s (.functionCallDone name args) now =
        ({ s with should_end := true },
         [.functionResultUpstream
            (handle_function_call name args s.stream_sid s.call_sid now).result])) ∧
    (∀ (now : String) (s : Session) (evs : List BridgeEvent),
      (∃ name args, BridgeEvent.fromOpenAI (.functionCallDone name args) ∈ evs) →
      hangupIssued (runBridge now s evs).1 = true) := by
  constructor
  · intro now s name args
    rfl
  · intro now s evs hex
    obtain ⟨name, args, hmem⟩ := hex
    induction evs generalizing s with
    | nil => simp at hmem
    | cons e rest ih =>
        rw [hangupIssued, runBridge_cons_fst]
        rcases List.mem_cons.mp hmem with heq | hmem2
        · subst heq
          exact should_end_run_mono now _ rest rfl
        · exact ih _ hmem2

/-- Witness for C6's theorem: a run containing one
`gather_client_information` call ends with the hangup issued. -/
theorem any_function_call_signals_termination_witness :
    hangupIssued (runBridge "T0" initialSession
      [.fromTwilio (.start "S1" "C1"),
       .fromOpenAI (.functionCallDone "gather_client_information"
         [("full_name", "Jane Doe"), ("reason_calling", "Needs a quote"),
          ("preferred_contact_method", "Email")])]).1 = true :=
  any_function_call_signals_termination.2 "T0" initialSession _
    ⟨"gather_client_information",
     [("full_name", "Jane Doe"), ("reason_calling", "Needs a quote"),
      ("preferred_contact_method", "Email")],
     List.mem_cons_of_mem _ (List.mem_cons_self _ _)⟩

/-- C6 counterexample: after a `gather_client_information` call — with no
`send_business_email` anywhere in the run — the termination flag is set and
the hangup is issued, contrary to the claim that only `send_business_email`
ends the interaction while the session continues after
`gather_client_information`. -/
theorem gather_call_hangup_counterexample :
    hangupIssued (runBridge "T0" initialSession
      [.fromOpenAI (.functionCallDone "gather_client_information"
        [("full_name", "Jane Doe"), ("reason_calling", "Needs a quote"),
         ("preferred_contact_method", "Email")])]).1 = true ∧
    hangupIssued (runBridge "T0" initialSession
      [.fromOpenAI (.functionCallDone "set_up_meeting"
        [("client_name", "Jane Doe"), ("preferred_date", "Monday"),
         ("preferred_time", "10:00")])]).1 = true := by
  decide

/-! ## Claims C3, C9, C10: the event pipeline -/

/-- C3: when the handler invoked for a delivered message raises, the
exception is caught inside `process_event` (logged as a `handlerFailed`
outcome, not re-raised), and the consuming loop processes every later
message on the same subscription exactly as it otherwise would; a raising
handler never terminates the loop. -/
theorem handler_failure_does_not_stop_loop
    (hb : String → EventData → Except String Unit)
    (pre rest : List (String × Except String EventData))
    (channel : String) (ed : EventData) (k err : String)
    (hfail : process_event hb channel (.ok ed) = .handlerFailed k err) :
    start_consuming hb (pre ++ (channel, .ok ed) :: rest) =
      start_consuming hb pre ++
        .handlerFailed k err :: start_consuming hb rest := by
  induction pre with
  | nil => simp [start_consuming, consumeLoop, hfail]
  | cons m pre2 ih =>
      simp only [start_consuming, consumeLoop, List.cons_append, List.append_eq] at ih ⊢
      rw [ih]

/-- Witness for C3's theorem: a handler that always raises fails on
message 1 and the router still processes message 2. -/
theorem handler_failure_does_not_stop_loop_witness :
    start_consuming (fun _ _ => .error "boom")
        ([] ++ ("customer:data:new", .ok { event_type := some "customer_data" }) ::
          [("customer:meeting:scheduled", .ok { event_type := some "meeting_scheduled" })]) =
      start_consuming (fun _ _ => .error "boom") [] ++
        .handlerFailed "customer_data" "boom" ::
          start_consuming (fun _ _ => .error "boom")
            [("customer:meeting:scheduled", .ok { event_type := some "meeting_scheduled" })] :=
  handler_failure_does_not_stop_loop (fun _ _ => .error "boom") [] _
    "customer:data:new" { event_type := some "customer_data" }
    "customer_data" "boom" (by decide)

/-- C9: with the transport connected, `publish_event` publishes the
envelope to the channel the static table assigns (the default channel for
unknown types), persists exactly one copy under a key with a 24-hour
(86400-second) expiry, republishes the same envelope to the priority
channel exactly when `data.urgency` is `high` or `urgent`, and delivers
only to the canonical channel when `data` has no urgency field. -/
theorem publish_event_routing (connected : Bool) (event_type : String)
    (data : Args) (stream_id call_sid : Option String) (event_id now : String)
    (hc : connected = true) :
    (publish_event connected event_type data stream_id call_sid event_id now).published =
      ((getKey REDIS_CHANNELS event_type).getD "customer:general",
        mkEnvelope event_type data stream_id call_sid event_id now) ::
      (if getKey data "urgency" = some "high" ∨ getKey data "urgency" = some "urgent"
       then [(high_priority_channel,
              mkEnvelope event_type data stream_id call_sid event_id now)]
       else []) ∧
    (publish_event connected event_type data stream_id call_sid event_id now).stored =
      [("customer:session:" ++ stream_id.getD "unknown" ++ ":" ++ event_id, 86400,
        mkEnvelope event_type data stream_id call_sid event_id now)] ∧
    (86400 : Nat) = 24 * 60 * 60 ∧
    (getKey data "urgency" = none →
      (publish_event connected event_type data stream_id call_sid event_id now).published =
        [((getKey REDIS_CHANNELS event_type).getD "customer:general",
          mkEnvelope event_type data stream_id call_sid event_id now)]) ∧
    (publish_event connected event_type data stream_id call_sid event_id now).returned
      = true := by
  subst hc
  refine ⟨by simp [publish_event], by simp [publish_event], by norm_num, ?_,
    by simp [publish_event]⟩
  intro hnone
  simp [publish_event, hnone]

/-- Witness for C9's theorem: an urgent `customer_data` publish goes to
`customer:data:new` and to the priority channel; the same envelope and one
24-hour persisted copy. -/
theorem publish_event_routing_witness :
    (publish_event true "customer_data" [("urgency", "high")]
        (some "S1") (some "C1") "E1" "T0").published =
      ((getKey REDIS_CHANNELS "customer_data").getD "customer:general",
        mkEnvelope "customer_data" [("urgency", "high")] (some "S1") (some "C1") "E1" "T0") ::
      (if getKey [("urgency", "high")] "urgency" = some "high" ∨
          getKey [("urgency", "high")] "urgency" = some "urgent"
       then [(high_priority_channel,
              mkEnvelope "customer_data" [("urgency", "high")] (some "S1") (some "C1") "E1" "T0")]
       else []) ∧
    (publish_event true "customer_data" [("urgency", "high")]
        (some "S1") (some "C1") "E1" "T0").stored =
      [("customer:session:" ++ (some "S1" : Option String).getD "unknown" ++ ":" ++ "E1", 86400,
        mkEnvelope "customer_data" [("urgency", "high")] (some "S1") (some "C1") "E1" "T0")] ∧
    (86400 : Nat) = 24 * 60 * 60 ∧
    (getKey [("urgency", "high")] "urgency" = none →
      (publish_event true "customer_data" [("urgency", "high")]
          (some "S1") (some "C1") "E1" "T0").published =
        [((getKey REDIS_CHANNELS "customer_data").getD "customer:general",
          mkEnvelope "customer_data" [("urgency", "high")] (some "S1") (some "C1") "E1" "T0")]) ∧
    (publish_event true "customer_data" [("urgency", "high")]
        (some "S1") (some "C1") "E1" "T0").returned = true :=
  publish_event_routing true "customer_data" [("urgency", "high")]
    (some "S1") (some "C1") "E1" "T0" rfl

/-- C10: a delivered message whose `event_type` is in the handler registry
is dispatched to that event type's own handler on every channel — the
priority channel included; the high-priority fallback never fires for a
registered type (other than `high_priority` itself), so an urgent
`customer_data` envelope fanned out to the priority channel is processed by
the `customer_data` handler on both deliveries. -/
theorem registered_type_routes_to_own_handler
    (hb : String → EventData → Except String Unit) (channel : String)
    (ed : EventData) (et : String) (htype : ed.event_type = some et)
    (hreg : et ∈ event_handler_keys) :
    process_event hb channel (.ok ed) =
      (match hb et ed with
       | .ok () => .handled et
       | .error err => .handlerFailed et err) ∧
    (et ≠ "high_priority" →
      ∀ err, process_event hb channel (.ok ed) ≠ .handled "high_priority" ∧
        process_event hb channel (.ok ed) ≠ .handlerFailed "high_priority" err) := by
  have hmain : process_event hb channel (.ok ed) =
      (match hb et ed with
       | .ok () => .handled et
       | .error err => .handlerFailed et err) := by
    simp [process_event, htype, hreg]
  refine ⟨hmain, fun hne err => ⟨?_, ?_⟩⟩
  · rw [hmain]
    cases hb et ed with
    | ok u => cases u; simp [hne]
    | error e2 => simp
  · rw [hmain]
    cases hb et ed with
    | ok u => cases u; simp
    | error e2 => simp [hne]

/-- Witness for C10's theorem: a `customer_data` message is handled by the
`customer_data` handler both on its canonical channel and on the priority
channel. -/
theorem registered_type_routes_to_own_handler_witness :
    (process_event (fun _ _ => .ok ()) "customer:priority:high"
        (.ok { event_type := some "customer_data" }) =
      (match (fun (_ : String) (_ : EventData) => Except.ok (ε := String) ())
          "customer_data" { event_type := some "customer_data" } with
       | .ok () => ProcessOutcome.handled "customer_data"
       | .error err => ProcessOutcome.handlerFailed "customer_data" err)) ∧
    (process_event (fun _ _ => .ok ()) "customer:data:new"
        (.ok { event_type := some "customer_data" }) =
      (match (fun (_ : String) (_ : EventData) => Except.ok (ε := String) ())
          "customer_data" { event_type := some "customer_data" } with
       | .ok () => ProcessOutcome.handled "customer_data"
       | .error err => ProcessOutcome.handlerFailed "customer_data" err)) :=
  ⟨(registered_type_routes_to_own_handler (fun _ _ => .ok ())
      "customer:priority:high" { event_type := some "customer_data" }
      "customer_data" rfl (by decide)).1,
   (registered_type_routes_to_own_handler (fun _ _ => .ok ())
      "customer:data:new" { event_type := some "customer_data" }
      "customer_data" rfl (by decide)).1⟩
